import Mathlib

/-!
Verification development for the beluva_mvp web application.

The definitions below are a shallow embedding of the TypeScript route
handlers and the LLM provider adapter of the repository. External
collaborators (the HTTP fetch primitive, the relational store, the object
store, JSON parsing of free-form AI text) are modelled as explicit oracle
parameters describing the outcome of each awaited call, while all control
flow, validation, classification and state updates are translated directly
from the source. Numeric JSON values are modelled as rationals, machine
strings as Lean strings.
-/

namespace Beluva

/-- Left brace character, written via its code point. -/
def lbrace : Char := Char.ofNat 123

/-- Right brace character, written via its code point. -/
def rbrace : Char := Char.ofNat 125

/-- Hexadecimal digit check used by the uuid format test. -/
def isHexDigit (c : Char) : Bool :=
  (('a' ≤ c) && (c ≤ 'f')) || (('0' ≤ c) && (c ≤ '9'))

/-- Model of the zod z.string().uuid() format check: 36 characters, dashes at
positions 8, 13, 18 and 23, lowercase hexadecimal digits elsewhere. -/
def isUuid (s : String) : Bool :=
  let cs := s.toList
  (cs.length = 36 : Bool) && (List.range 36).all (fun i =>
    if i = 8 || i = 13 || i = 18 || i = 23 then (cs.getD i ' ' = '-' : Bool)
    else isHexDigit (cs.getD i ' '))

/-! ## Provider adapter (src/src/lib/llm-service.ts) -/

/-- The two generative AI providers of LLMProviderSchema. -/
inductive LLMProvider where
  | openai
  | gemini
deriving DecidableEq, Repr

/-- Model of LLMProviderSchema.parse: succeeds exactly on the two enum
strings, rejecting anything else. -/
def parseProviderName (s : String) : Option LLMProvider :=
  if s = "openai" then some LLMProvider.openai
  else if s = "gemini" then some LLMProvider.gemini
  else none

/-- Model of getCurrentProvider. The environment variable
NEXT_PUBLIC_LLM_SERVICE is an optional string; in JS both an unset variable
and the empty string are falsy, so the literal "openai" is substituted, and
a value the enum schema rejects falls back to openai after logging. -/
def getCurrentProvider (env : Option String) : LLMProvider :=
  let provider : String :=
    match env with
    | none => "openai"
    | some s => if s = "" then "openai" else s
  match parseProviderName provider with
  | some p => p
  | none => LLMProvider.openai

/-- Normalized completion result. The TS interface declares text as a
string, but at runtime the value is undefined when the Gemini leaf field was
absent, so the payload is modelled as an optional string. -/
structure CompletionResponse where
  text : Option String
  provider : LLMProvider
deriving DecidableEq, Repr

/-- Normalized image analysis result; payload optional for the same reason
as CompletionResponse. -/
structure ImageAnalysisResponse where
  text : Option String
  provider : LLMProvider
deriving DecidableEq, Repr

/-- Normalized image generation result; imageUrl is undefined when
data.data[0].url was absent at the leaf. -/
structure ImageGenerationResponse where
  imageUrl : Option String
  provider : LLMProvider
deriving DecidableEq, Repr

/-- Outcome of the payload access chain an operation performs on the parsed
body (for example data.choices[0].text, or data.data[0].url). pathError
models a missing intermediate step: the next property access is on undefined
and raises a TypeError. leaf models a path that resolves down to the final
field, whose value is none when that leaf key is absent - reading it yields
undefined without raising. -/
inductive PayloadField where
  | pathError
  | leaf (value : Option String)
deriving DecidableEq, Repr

/-- Parsed JSON body of a provider HTTP response, abstracted to the two
accesses the adapter performs on it: the error envelope message
(error.error?.message) and the operation specific payload access chain. -/
structure ProviderJsonBody where
  errorMessage : Option String
  payloadField : PayloadField
deriving DecidableEq, Repr

/-- Outcome of one outbound fetch to a provider endpoint. networkFailure
models the fetch promise rejecting; response carries response.ok,
response.statusText and the result of response.json(), which is none when
the body is malformed JSON and json() throws. -/
inductive FetchOutcome where
  | networkFailure (msg : String)
  | response (ok : Bool) (statusText : String) (json : Option ProviderJsonBody)
deriving DecidableEq, Repr

/-- Normalized adapter error. upstream covers network failures and non-2xx
responses carrying a readable error envelope; parse covers malformed JSON
bodies and responses missing the expected payload field. -/
inductive ProviderError where
  | upstream (msg : String)
  | parse (msg : String)
deriving DecidableEq, Repr

/-- The message carried by a normalized adapter error. -/
def providerErrorMessage : ProviderError → String
  | ProviderError.upstream m => m
  | ProviderError.parse m => m

/-- Model of openAIService.textCompletion over the outcome of its single
fetch. The second component counts provider endpoint calls issued. A non-2xx
response first parses the error body (so a malformed error body surfaces the
JSON failure), otherwise throws the upstream message; a 2xx response parses
the body and evaluates data.choices[0].text.trim() - a broken path raises on
the property access, and an absent text leaf also raises because trim is
called on undefined. -/
def openAI_textCompletion (o : FetchOutcome) :
    Except ProviderError CompletionResponse × Nat :=
  match o with
  | FetchOutcome.networkFailure msg => (Except.error (ProviderError.upstream msg), 1)
  | FetchOutcome.response ok statusText json =>
    if ok then
      match json with
      | none => (Except.error (ProviderError.parse "unexpected token in JSON"), 1)
      | some body =>
        match body.payloadField with
        | PayloadField.pathError =>
          (Except.error (ProviderError.parse "cannot read property of undefined"), 1)
        | PayloadField.leaf none =>
          (Except.error (ProviderError.parse "cannot read property trim of undefined"), 1)
        | PayloadField.leaf (some t) =>
          (Except.ok { text := some t.trim, provider := LLMProvider.openai }, 1)
    else
      match json with
      | none => (Except.error (ProviderError.parse "unexpected token in JSON"), 1)
      | some body =>
        (Except.error (ProviderError.upstream
          ("OpenAI API error: " ++ body.errorMessage.getD statusText)), 1)

/-- Model of openAIService.analyzeImage: same envelope handling, the payload
chain being data.choices[0].message.content.trim(), so an absent content
leaf also raises on the trim call. The image URL is sent to the provider
inside the request body, so no separate image fetch occurs. -/
def openAI_analyzeImage (o : FetchOutcome) :
    Except ProviderError ImageAnalysisResponse × Nat :=
  match o with
  | FetchOutcome.networkFailure msg => (Except.error (ProviderError.upstream msg), 1)
  | FetchOutcome.response ok statusText json =>
    if ok then
      match json with
      | none => (Except.error (ProviderError.parse "unexpected token in JSON"), 1)
      | some body =>
        match body.payloadField with
        | PayloadField.pathError =>
          (Except.error (ProviderError.parse "cannot read property of undefined"), 1)
        | PayloadField.leaf none =>
          (Except.error (ProviderError.parse "cannot read property trim of undefined"), 1)
        | PayloadField.leaf (some t) =>
          (Except.ok { text := some t.trim, provider := LLMProvider.openai }, 1)
    else
      match json with
      | none => (Except.error (ProviderError.parse "unexpected token in JSON"), 1)
      | some body =>
        (Except.error (ProviderError.upstream
          ("OpenAI API error: " ++ body.errorMessage.getD statusText)), 1)

/-- Model of openAIService.generateImage: payload chain data.data[0].url
with no method call on the leaf, so a broken path raises but an absent url
leaf flows into the result as an undefined imageUrl without any error. -/
def openAI_generateImage (o : FetchOutcome) :
    Except ProviderError ImageGenerationResponse × Nat :=
  match o with
  | FetchOutcome.networkFailure msg => (Except.error (ProviderError.upstream msg), 1)
  | FetchOutcome.response ok statusText json =>
    if ok then
      match json with
      | none => (Except.error (ProviderError.parse "unexpected token in JSON"), 1)
      | some body =>
        match body.payloadField with
        | PayloadField.pathError =>
          (Except.error (ProviderError.parse "cannot read property of undefined"), 1)
        | PayloadField.leaf u =>
          (Except.ok { imageUrl := u, provider := LLMProvider.openai }, 1)
    else
      match json with
      | none => (Except.error (ProviderError.parse "unexpected token in JSON"), 1)
      | some body =>
        (Except.error (ProviderError.upstream
          ("OpenAI API error: " ++ body.errorMessage.getD statusText)), 1)

/-- Model of geminiService.textCompletion: payload chain
data.candidates[0].content.parts[0].text with no method call on the leaf, so
an absent text leaf is returned as an undefined payload in a success. -/
def gemini_textCompletion (o : FetchOutcome) :
    Except ProviderError CompletionResponse × Nat :=
  match o with
  | FetchOutcome.networkFailure msg => (Except.error (ProviderError.upstream msg), 1)
  | FetchOutcome.response ok statusText json =>
    if ok then
      match json with
      | none => (Except.error (ProviderError.parse "unexpected token in JSON"), 1)
      | some body =>
        match body.payloadField with
        | PayloadField.pathError =>
          (Except.error (ProviderError.parse "cannot read property of undefined"), 1)
        | PayloadField.leaf t =>
          (Except.ok { text := t, provider := LLMProvider.gemini }, 1)
    else
      match json with
      | none => (Except.error (ProviderError.parse "unexpected token in JSON"), 1)
      | some body =>
        (Except.error (ProviderError.upstream
          ("Gemini API error: " ++ body.errorMessage.getD statusText)), 1)

/-- Outcome of the preliminary fetch of the user image performed by
geminiService.analyzeImage to convert it to base64. The handler does not
check the status of this response, so only a rejected fetch can fail. -/
inductive ImageFetchOutcome where
  | networkFailure (msg : String)
  | fetched
deriving DecidableEq, Repr

/-- Model of geminiService.analyzeImage: first fetches the image itself
(whose rejection propagates before any provider endpoint call), then calls
the Gemini endpoint with the same envelope and leaf handling as gemini text
completion - an absent text leaf yields a successful undefined payload. -/
def gemini_analyzeImage (imgFetch : ImageFetchOutcome) (o : FetchOutcome) :
    Except ProviderError ImageAnalysisResponse × Nat :=
  match imgFetch with
  | ImageFetchOutcome.networkFailure msg => (Except.error (ProviderError.upstream msg), 0)
  | ImageFetchOutcome.fetched =>
    match o with
    | FetchOutcome.networkFailure msg => (Except.error (ProviderError.upstream msg), 1)
    | FetchOutcome.response ok statusText json =>
      if ok then
        match json with
        | none => (Except.error (ProviderError.parse "unexpected token in JSON"), 1)
        | some body =>
          match body.payloadField with
          | PayloadField.pathError =>
            (Except.error (ProviderError.parse "cannot read property of undefined"), 1)
          | PayloadField.leaf t =>
            (Except.ok { text := t, provider := LLMProvider.gemini }, 1)
      else
        match json with
        | none => (Except.error (ProviderError.parse "unexpected token in JSON"), 1)
        | some body =>
          (Except.error (ProviderError.upstream
            ("Gemini API error: " ++ body.errorMessage.getD statusText)), 1)

/-- Model of geminiService.generateImage: Gemini has no image generation
endpoint, so after a warning log the call is handed to the OpenAI
implementation unchanged. -/
def gemini_generateImage (o : FetchOutcome) :
    Except ProviderError ImageGenerationResponse × Nat :=
  openAI_generateImage o

/-- Model of llmService.completeText: getLLMService dispatches on the
provider read from the environment at call time. -/
def llmService_completeText (env : Option String) (o : FetchOutcome) :
    Except ProviderError CompletionResponse × Nat :=
  match getCurrentProvider env with
  | LLMProvider.openai => openAI_textCompletion o
  | LLMProvider.gemini => gemini_textCompletion o

/-- Model of llmService.analyzeImage. The image fetch oracle is only
consulted by the Gemini implementation. -/
def llmService_analyzeImage (env : Option String) (imgFetch : ImageFetchOutcome)
    (o : FetchOutcome) : Except ProviderError ImageAnalysisResponse × Nat :=
  match getCurrentProvider env with
  | LLMProvider.openai => openAI_analyzeImage o
  | LLMProvider.gemini => gemini_analyzeImage imgFetch o

/-- Model of llmService.generateImage. -/
def llmService_generateImage (env : Option String) (o : FetchOutcome) :
    Except ProviderError ImageGenerationResponse × Nat :=
  match getCurrentProvider env with
  | LLMProvider.openai => openAI_generateImage o
  | LLMProvider.gemini => gemini_generateImage o

/-- Kind of an adapter result: none for success, some true for an upstream
error, some false for a parse error. -/
def resultKind {α : Type} (r : Except ProviderError α) : Option Bool :=
  match r with
  | Except.ok _ => none
  | Except.error (ProviderError.upstream _) => some true
  | Except.error (ProviderError.parse _) => some false

/-- Claim C3 counterexample: a 2xx response whose payload path resolves but
whose expected leaf field is absent surfaces no ProviderError at all -
generateImage returns a success with an undefined imageUrl (there is no
method call on the url leaf to raise), and the gemini text completion
likewise returns a success with an undefined text payload. -/
theorem missing_leaf_field_yields_success :
    llmService_generateImage none
        (FetchOutcome.response true "OK"
          (some { errorMessage := none, payloadField := PayloadField.leaf none })) =
      (Except.ok { imageUrl := none, provider := LLMProvider.openai }, 1) ∧
    llmService_completeText (some "gemini")
        (FetchOutcome.response true "OK"
          (some { errorMessage := none, payloadField := PayloadField.leaf none })) =
      (Except.ok { text := none, provider := LLMProvider.gemini }, 1) :=
  ⟨rfl, rfl⟩

/-- Claim C3 amended: every adapter operation issues at most one provider
endpoint call (no retries), and every surfaced error is one of exactly two
ProviderError kinds: network failures and non-2xx responses with a readable
error body surface as upstream errors, while malformed JSON bodies and
broken payload access paths surface as parse errors, uniformly across
operations and providers. A response whose payload path resolves with the
leaf field absent is surfaced as a parse error only by the OpenAI text
operations, whose trim call raises on undefined; generateImage under either
provider and the gemini text operations instead return a success carrying an
undefined payload. -/
theorem adapter_error_classification (env : Option String)
    (f : ImageFetchOutcome) (o : FetchOutcome) :
    ((llmService_completeText env o).2 = 1 ∧
      (llmService_analyzeImage env f o).2 ≤ 1 ∧
      (llmService_generateImage env o).2 = 1) ∧
    (∀ m, o = FetchOutcome.networkFailure m → f = ImageFetchOutcome.fetched →
      resultKind (llmService_completeText env o).1 = some true ∧
      resultKind (llmService_analyzeImage env f o).1 = some true ∧
      resultKind (llmService_generateImage env o).1 = some true) ∧
    (∀ st b, o = FetchOutcome.response false st (some b) →
        f = ImageFetchOutcome.fetched →
      resultKind (llmService_completeText env o).1 = some true ∧
      resultKind (llmService_analyzeImage env f o).1 = some true ∧
      resultKind (llmService_generateImage env o).1 = some true) ∧
    (∀ ok st, o = FetchOutcome.response ok st none →
        f = ImageFetchOutcome.fetched →
      resultKind (llmService_completeText env o).1 = some false ∧
      resultKind (llmService_analyzeImage env f o).1 = some false ∧
      resultKind (llmService_generateImage env o).1 = some false) ∧
    (∀ st b, o = FetchOutcome.response true st (some b) →
        b.payloadField = PayloadField.pathError →
        f = ImageFetchOutcome.fetched →
      resultKind (llmService_completeText env o).1 = some false ∧
      resultKind (llmService_analyzeImage env f o).1 = some false ∧
      resultKind (llmService_generateImage env o).1 = some false) ∧
    (∀ st b, o = FetchOutcome.response true st (some b) →
        b.payloadField = PayloadField.leaf none →
        f = ImageFetchOutcome.fetched →
      (getCurrentProvider env = LLMProvider.openai →
        resultKind (llmService_completeText env o).1 = some false ∧
        resultKind (llmService_analyzeImage env f o).1 = some false) ∧
      (getCurrentProvider env = LLMProvider.gemini →
        (llmService_completeText env o).1 =
          Except.ok { text := none, provider := LLMProvider.gemini } ∧
        (llmService_analyzeImage env f o).1 =
          Except.ok { text := none, provider := LLMProvider.gemini }) ∧
      (llmService_generateImage env o).1 =
        Except.ok { imageUrl := none, provider := LLMProvider.openai }) ∧
    (∀ m, f = ImageFetchOutcome.networkFailure m →
        getCurrentProvider env = LLMProvider.gemini →
      resultKind (llmService_analyzeImage env f o).1 = some true ∧
      (llmService_analyzeImage env f o).2 = 0) := by
  cases hp : getCurrentProvider env <;>
    cases f <;>
      cases o with
      | networkFailure m =>
        simp [llmService_completeText, llmService_analyzeImage,
          llmService_generateImage, hp, openAI_textCompletion, openAI_analyzeImage,
          openAI_generateImage, gemini_textCompletion, gemini_analyzeImage,
          gemini_generateImage, resultKind]
      | response ok st j =>
        cases ok <;> cases j with
        | none =>
          simp [llmService_completeText, llmService_analyzeImage,
            llmService_generateImage, hp, openAI_textCompletion, openAI_analyzeImage,
            openAI_generateImage, gemini_textCompletion, gemini_analyzeImage,
            gemini_generateImage, resultKind]
        | some b =>
          rcases hb : b.payloadField with _ | v
          · simp [llmService_completeText, llmService_analyzeImage,
              llmService_generateImage, hp, openAI_textCompletion, openAI_analyzeImage,
              openAI_generateImage, gemini_textCompletion, gemini_analyzeImage,
              gemini_generateImage, resultKind, hb]
          · cases v <;>
              simp [llmService_completeText, llmService_analyzeImage,
                llmService_generateImage, hp, openAI_textCompletion, openAI_analyzeImage,
                openAI_generateImage, gemini_textCompletion, gemini_analyzeImage,
                gemini_generateImage, resultKind, hb]

/-- Witness for the amended C3 at the concrete absent-leaf response: the
classification theorem itself yields the undefined-payload success of
generateImage. -/
theorem adapter_error_classification_witness :
    (llmService_generateImage none
        (FetchOutcome.response true "OK"
          (some { errorMessage := none, payloadField := PayloadField.leaf none }))).1 =
      Except.ok { imageUrl := none, provider := LLMProvider.openai } :=
  ((adapter_error_classification none ImageFetchOutcome.fetched
      (FetchOutcome.response true "OK"
        (some { errorMessage := none, payloadField := PayloadField.leaf none }))).2.2.2.2.2.1
    "OK" { errorMessage := none, payloadField := PayloadField.leaf none }
    rfl rfl rfl).2.2

/-- Claim C5: with the selector naming the provider that lacks an image
generation endpoint (gemini), every generateImage call is delegated
unchanged to the OpenAI implementation, and a successful upstream response
yields a normal image generation response rather than an error. -/
theorem gemini_generateImage_delegates :
    (∀ o, llmService_generateImage (some "gemini") o = openAI_generateImage o) ∧
    (∀ st body url, body.payloadField = PayloadField.leaf (some url) →
      llmService_generateImage (some "gemini")
          (FetchOutcome.response true st (some body)) =
        (Except.ok { imageUrl := some url, provider := LLMProvider.openai }, 1)) := by
  constructor
  · intro o
    simp [llmService_generateImage, getCurrentProvider, parseProviderName,
      gemini_generateImage]
  · intro st body url hb
    simp [llmService_generateImage, getCurrentProvider, parseProviderName,
      gemini_generateImage, openAI_generateImage, hb]

/-- Witness for C5 at a concrete successful call: the gemini-configured
adapter produces an OpenAI-tagged image result. -/
theorem gemini_generateImage_delegates_witness :
    llmService_generateImage (some "gemini")
        (FetchOutcome.response true "OK"
          (some { errorMessage := none
                  payloadField := PayloadField.leaf (some "https://img.example/out.png") })) =
      (Except.ok { imageUrl := some "https://img.example/out.png"
                   provider := LLMProvider.openai }, 1) :=
  gemini_generateImage_delegates.2 "OK"
    { errorMessage := none
      payloadField := PayloadField.leaf (some "https://img.example/out.png") }
    "https://img.example/out.png" rfl

/-- Claim C10: when NEXT_PUBLIC_LLM_SERVICE is absent or is any string other
than the two enum values, every adapter operation silently selects the
OpenAI backend rather than failing with a configuration error. -/
theorem default_provider_is_openai (env : Option String)
    (h : env = none ∨ ∀ s, env = some s → s ≠ "openai" ∧ s ≠ "gemini") :
    getCurrentProvider env = LLMProvider.openai ∧
    (∀ o, llmService_completeText env o = openAI_textCompletion o) ∧
    (∀ f o, llmService_analyzeImage env f o = openAI_analyzeImage o) ∧
    (∀ o, llmService_generateImage env o = openAI_generateImage o) := by
  have hprov : getCurrentProvider env = LLMProvider.openai := by
    rcases h with h | h
    · simp [h, getCurrentProvider, parseProviderName]
    · cases env with
      | none => simp [getCurrentProvider, parseProviderName]
      | some s =>
        rcases h s rfl with ⟨h1, h2⟩
        by_cases hs : s = ""
        · simp [getCurrentProvider, parseProviderName, hs]
        · simp [getCurrentProvider, parseProviderName, hs, h1, h2]
  refine ⟨hprov, ?_, ?_, ?_⟩
  · intro o; simp [llmService_completeText, hprov]
  · intro f o; simp [llmService_analyzeImage, hprov]
  · intro o; simp [llmService_generateImage, hprov]

/-- Witness for C10 at a concrete unsupported selector value. -/
theorem default_provider_is_openai_witness :
    getCurrentProvider (some "anthropic") = LLMProvider.openai :=
  (default_provider_is_openai (some "anthropic")
    (Or.inr (fun s hs => by cases hs; exact ⟨by decide, by decide⟩))).1

/-! ## Relational data model (src/src/lib/supabase.ts type definitions) -/

/-- Row of the room_images table, restricted to the columns the handlers
read. -/
structure RoomImage where
  id : String
  user_id : String
  file_path : String
deriving DecidableEq, Repr

/-- Row of the furniture_items table. -/
structure FurnitureItem where
  id : String
  name : String
  description : String
  price : Rat
  dimensions : String
  material : String
  tags : List String
  image_urls : List String
  stock_status : Bool
  category : String
  purchase_link : String
deriving DecidableEq, Repr

/-- Row of the user_sessions table (a design session). The free-form
preference payload is not inspected by any handler after being written, so
it is omitted from the row model. -/
structure UserSession where
  id : String
  user_id : String
  uploaded_image_id : String
  selected_furniture_ids : List String
  generated_image_url : Option String
deriving DecidableEq, Repr

/-- Row of the furniture_placement_metadata table. -/
structure PlacementRow where
  id : String
  generated_image_id : String
  furniture_id : String
  x : Rat
  y : Rat
  width : Rat
  height : Rat
deriving DecidableEq, Repr

/-- JSON response envelope of the route handlers: ok carries the HTTP status
and the data payload of a success envelope, err the status and message of an
error envelope. -/
inductive ApiResponse (α : Type) where
  | ok (status : Nat) (data : α)
  | err (status : Nat) (message : String)
deriving DecidableEq, Repr

/-- Model of supabase.storage.from(bucket).getPublicUrl(path): a pure URL
computation over the bucket name and storage path. -/
def publicUrl (bucket path : String) : String :=
  "https://storage.example/" ++ bucket ++ "/" ++ path

/-! ## Recommendation workflow (POST handler of /api/recommend-furniture) -/

/-- One element of the recommendations array the prompt instructs the model
to produce. -/
structure Recommendation where
  id : String
  name : String
  description : String
  price : Rat
  image_url : String
  purchase_link : String
  reason : String
deriving DecidableEq, Repr

/-- Result of JSON.parse on the extracted substring, abstracted to the one
access the handler performs: the recommendations key, none when the parsed
object lacks it (its length access then raises a TypeError). -/
structure ParsedRecommendations where
  recommendations : Option (List Recommendation)
deriving DecidableEq, Repr

/-- Request body of POST /api/recommend-furniture after JSON decoding. -/
structure RecRequest where
  room_image_id : String
  budget : Rat
  style : Option String
  furniture_types : List String
deriving DecidableEq, Repr

/-- Model of RecommendationRequestSchema.safeParse on a decoded body: uuid
room image id, nonnegative budget, optional style, non-empty type list. -/
def recValidate (r : RecRequest) : Bool :=
  isUuid r.room_image_id && decide (0 ≤ r.budget) && !r.furniture_types.isEmpty

/-- Model of text.match over the regex matching a brace-delimited substring:
the greedy match runs from the first left brace to the last right brace, and
fails when no right brace follows a left brace. -/
def extractBraces (s : String) : Option String :=
  let cs := s.toList
  match cs.findIdx? (fun c => c = lbrace) with
  | none => none
  | some i =>
    match cs.reverse.findIdx? (fun c => c = rbrace) with
    | none => none
    | some k =>
      let j := cs.length - 1 - k
      if i ≤ j then some (String.mk ((cs.drop i).take (j + 1 - i))) else none

/-- The fixed fallback recommendation list substituted in the development
configuration when parsing the AI response fails. -/
def mockRecommendations : ParsedRecommendations :=
  { recommendations := some
      [ { id := "mock-id-1"
          name := "Mid-Century Modern Sofa"
          description := "Elegant 3-seater sofa with wooden legs and light gray upholstery"
          price := 799.99
          image_url := "https://example.com/sofa.jpg"
          purchase_link := "https://example.com/sofa"
          reason := "The clean lines match your room\x27s aesthetic and the neutral color will complement your existing decor." }
      , { id := "mock-id-2"
          name := "Round Coffee Table"
          description := "Solid wood coffee table with storage shelf"
          price := 249.99
          image_url := "https://example.com/table.jpg"
          purchase_link := "https://example.com/table"
          reason := "The round shape works well with your seating arrangement and adds a nice contrast to the rectangular elements." } ] }

/-- External collaborators of the recommendation handler, as outcome
oracles: the authenticated user, the room_images table, the outcome of the
llmService.analyzeImage call, JSON.parse on the extracted substring, the
outcome of the user_sessions insert, and NODE_ENV. -/
structure RecDeps where
  authUser : Option String
  roomImages : List RoomImage
  ai : Except ProviderError ImageAnalysisResponse
  parseJson : String → Option ParsedRecommendations
  sessionInsert : Except String UserSession
  nodeEnv : String

/-- Tail of the recommendation handler once a recommendations object is in
hand: the user_sessions insert error is only logged, then the success logger
reads recommendations.recommendations.length (a missing key raises a
TypeError, mapped to a 500 by the outer catch), then the object is returned
as the success payload. -/
def finishRecommendations (recs : ParsedRecommendations) :
    ApiResponse ParsedRecommendations :=
  match recs.recommendations with
  | none => ApiResponse.err 500 "Cannot read properties of undefined"
  | some _ => ApiResponse.ok 200 recs

/-- Model of the POST handler of /api/recommend-furniture: authentication,
body validation, room image lookup and ownership check, the analyzeImage
call - whose text payload may be undefined, in which case the regex match
call on it raises and the outer catch answers 500 - then extraction and
parse of the brace-delimited JSON substring with the development-only
fallback, session insert (non-fatal), success envelope. -/
def recommendFurniture (d : RecDeps) (req : RecRequest) :
    ApiResponse ParsedRecommendations :=
  match d.authUser with
  | none => ApiResponse.err 401 "Unauthorized"
  | some uid =>
    if recValidate req = false then
      ApiResponse.err 400 "validation failed"
    else
      match d.roomImages.find? (fun ri => ri.id = req.room_image_id) with
      | none => ApiResponse.err 404 "Room image not found"
      | some roomImage =>
        if roomImage.user_id ≠ uid then ApiResponse.err 403 "Unauthorized"
        else
          match d.ai with
          | Except.error e => ApiResponse.err 500 (providerErrorMessage e)
          | Except.ok resp =>
            match resp.text with
            | none => ApiResponse.err 500 "Cannot read properties of undefined"
            | some txt =>
              match (match extractBraces txt with
                     | some js => d.parseJson js
                     | none => none) with
              | some recs => finishRecommendations recs
              | none =>
                if d.nodeEnv = "development" then
                  finishRecommendations mockRecommendations
                else
                  ApiResponse.err 500 "Failed to generate furniture recommendations"

/-- Room image id used in the concrete recommendation scenarios. -/
def recRoomUuid : String := "123e4567-e89b-12d3-a456-426614174000"

/-- AI response text whose brace-delimited substring parses to an object
with an empty recommendations array. -/
def emptyRecsText : String := "\x7b\"recommendations\":[]\x7d"

/-- Room image row owned by user-1, used in the concrete scenarios. -/
def recRoomImage : RoomImage :=
  { id := recRoomUuid
    user_id := "user-1"
    file_path := "user-1/room1.jpg" }

/-- Valid recommendation request of the concrete scenarios. -/
def recReq : RecRequest :=
  { room_image_id := recRoomUuid
    budget := 1000
    style := some "modern"
    furniture_types := ["sofa"] }

/-- Dependencies under which the AI answers with an empty recommendations
array: the owner is authenticated, the room image exists, the provider call
succeeds, JSON.parse succeeds on the extracted substring, and NODE_ENV is
production. -/
def emptyRecsDeps : RecDeps :=
  { authUser := some "user-1"
    roomImages := [recRoomImage]
    ai := Except.ok { text := some emptyRecsText, provider := LLMProvider.openai }
    parseJson := fun s =>
      if s = emptyRecsText then some { recommendations := some [] } else none
    sessionInsert := Except.ok
      { id := "sess-1"
        user_id := "user-1"
        uploaded_image_id := recRoomUuid
        selected_furniture_ids := []
        generated_image_url := none }
    nodeEnv := "production" }

/-- Claim C2 counterexample: a valid request by the owner for which the AI
response parses to an empty recommendations array is answered with a success
envelope carrying the empty list, so the workflow does return an empty
recommendations list as a success response. -/
theorem empty_recommendations_returned :
    recommendFurniture emptyRecsDeps recReq =
      ApiResponse.ok 200 { recommendations := some ([] : List Recommendation) } := by
  decide

/-- Claim C2 amended: for a valid request by the owner of an existing room
image, the workflow returns exactly the recommendations list parsed from the
AI response, including the empty list; emptiness is not checked, and a
RecommendationGenerationError arises only when extraction or parsing fails
(or the parsed object lacks the recommendations key). -/
theorem recommendations_list_passthrough
    (d : RecDeps) (req : RecRequest) (uid : String) (roomImage : RoomImage)
    (resp : ImageAnalysisResponse) (txt : String) (l : List Recommendation)
    (hau : d.authUser = some uid)
    (hv : recValidate req = true)
    (hfind : d.roomImages.find? (fun ri => ri.id = req.room_image_id) = some roomImage)
    (hown : roomImage.user_id = uid)
    (hai : d.ai = Except.ok resp)
    (htext : resp.text = some txt)
    (hparse : (match extractBraces txt with
               | some js => d.parseJson js
               | none => none) = some { recommendations := some l }) :
    recommendFurniture d req = ApiResponse.ok 200 { recommendations := some l } := by
  simp [recommendFurniture, hau, hv, hfind, hown, hai, htext, hparse,
    finishRecommendations]

/-- Witness for the amended C2 at a concrete parse success. -/
theorem recommendations_list_passthrough_witness :
    recommendFurniture
      { authUser := some "user-1"
        roomImages := [recRoomImage]
        ai := Except.ok { text := some "\x7b\x7d", provider := LLMProvider.openai }
        parseJson := fun _ => some { recommendations := some [] }
        sessionInsert := Except.error "insert failed"
        nodeEnv := "production" } recReq =
      ApiResponse.ok 200 { recommendations := some ([] : List Recommendation) } :=
  recommendations_list_passthrough _ recReq "user-1" recRoomImage
    { text := some "\x7b\x7d", provider := LLMProvider.openai } "\x7b\x7d" []
    rfl (by decide) (by decide) rfl rfl rfl (by decide)

/-- Claim C4: when extraction and parsing of the brace-delimited JSON
substring fails, the fixed fallback recommendation list is substituted only
in the development (hence non-production) configuration; in production the
workflow answers with a 500 error envelope instead. -/
theorem parse_failure_fallback_policy
    (d : RecDeps) (req : RecRequest) (uid : String) (roomImage : RoomImage)
    (resp : ImageAnalysisResponse) (txt : String)
    (hau : d.authUser = some uid)
    (hv : recValidate req = true)
    (hfind : d.roomImages.find? (fun ri => ri.id = req.room_image_id) = some roomImage)
    (hown : roomImage.user_id = uid)
    (hai : d.ai = Except.ok resp)
    (htext : resp.text = some txt)
    (hparse : (match extractBraces txt with
               | some js => d.parseJson js
               | none => none) = none) :
    (d.nodeEnv = "production" →
      recommendFurniture d req =
        ApiResponse.err 500 "Failed to generate furniture recommendations") ∧
    (recommendFurniture d req = ApiResponse.ok 200 mockRecommendations →
      d.nodeEnv = "development") ∧
    (d.nodeEnv = "development" →
      recommendFurniture d req = ApiResponse.ok 200 mockRecommendations) := by
  by_cases hdev : d.nodeEnv = "development"
  · refine ⟨?_, fun _ => hdev, ?_⟩
    · intro hprod; rw [hdev] at hprod; exact absurd hprod (by decide)
    · intro _
      simp [recommendFurniture, hau, hv, hfind, hown, hai, htext, hparse, hdev,
        finishRecommendations, mockRecommendations]
  · have hres : recommendFurniture d req =
        ApiResponse.err 500 "Failed to generate furniture recommendations" := by
      simp [recommendFurniture, hau, hv, hfind, hown, hai, htext, hparse, hdev]
    refine ⟨fun _ => hres, ?_, fun hd => absurd hd hdev⟩
    intro hok
    rw [hres] at hok
    exact absurd hok (by simp)

/-- Room image and dependencies for the concrete C4 scenario: the AI answer
contains no brace-delimited JSON and NODE_ENV is production. -/
def parseFailDeps : RecDeps :=
  { authUser := some "user-1"
    roomImages := [recRoomImage]
    ai := Except.ok
      { text := some "Sorry, I cannot produce structured recommendations."
        provider := LLMProvider.openai }
    parseJson := fun _ => none
    sessionInsert := Except.ok
      { id := "sess-2"
        user_id := "user-1"
        uploaded_image_id := recRoomUuid
        selected_furniture_ids := []
        generated_image_url := none }
    nodeEnv := "production" }

/-- Witness for C4: in production a response without extractable JSON yields
the 500 error envelope. -/
theorem parse_failure_fallback_policy_witness :
    recommendFurniture parseFailDeps recReq =
      ApiResponse.err 500 "Failed to generate furniture recommendations" :=
  (parse_failure_fallback_policy parseFailDeps recReq "user-1" recRoomImage
    { text := some "Sorry, I cannot produce structured recommendations."
      provider := LLMProvider.openai }
    "Sorry, I cannot produce structured recommendations."
    rfl (by decide) (by decide) rfl rfl rfl (by decide)).1 rfl

/-! ## Visualization workflow (POST handler of /api/generate-room-visual) -/

/-- Request body of POST /api/generate-room-visual after JSON decoding. -/
structure VisRequest where
  room_image_id : String
  furniture_item_ids : List String
deriving DecidableEq, Repr

/-- Model of RoomVisualizationRequestSchema.safeParse: uuid room image id
and a non-empty list of uuid furniture item ids. -/
def visValidate (r : VisRequest) : Bool :=
  isUuid r.room_image_id && !r.furniture_item_ids.isEmpty &&
    r.furniture_item_ids.all isUuid

/-- Success payload of the visualization handler: the stored image URL and
the id of the upserted design session, absent when the upsert failed. -/
structure VisData where
  url : String
  session_id : Option String
deriving DecidableEq, Repr

/-- One furniture block of the composition prompt; a missing or empty first
image URL is rendered as Not provided, matching the JS falsy check. -/
def furnitureDetail (item : FurnitureItem) : String :=
  let firstUrl := item.image_urls.headD ""
  "- " ++ item.name ++ ": " ++ item.description ++
    " - Price: $" ++ toString item.price ++
    " - Materials: " ++ item.material ++
    " - Image URL: " ++ (if firstUrl = "" then "Not provided" else firstUrl)

/-- The composition prompt built from the room image URL and the fetched
furniture rows, whitespace condensed. -/
def visPrompt (roomImageUrl : String) (items : List FurnitureItem) : String :=
  "Generate a realistic visualization of a room with specific furniture items placed in it. Room image: "
    ++ roomImageUrl
    ++ " Furniture to place in the room: "
    ++ String.intercalate " " (items.map furnitureDetail)
    ++ " Instructions: use the provided room image as the base, add the furniture items described above in appropriate locations, make the result look realistic and to scale, maintain the original style and lighting of the room, output a single coherent image."

/-- External collaborators of the visualization handler: the authenticated
user, the room_images and furniture_items tables, a possible error of the
furniture id query, the generateImage call as a function of the prompt, the
download of the generated image, the storage upload, the fresh uuid filename
and the user_sessions upsert. -/
structure VisDeps where
  authUser : Option String
  roomImages : List RoomImage
  furnitureItems : List FurnitureItem
  furnitureQueryError : Option String
  gen : String → Except ProviderError ImageGenerationResponse
  download : Except String Unit
  uploadError : Option String
  freshName : String
  upsert : Except String UserSession

/-- Tail of the visualization handler once the prompt has been built: the
generateImage call, the JS truthiness check on the returned URL, the
download of the generated bytes, the re-upload under a fresh user-scoped
key, and the best-effort session upsert whose failure is only logged. The
second component records the prompt passed to the image generation
operation. -/
def visGenerate (d : VisDeps) (uid prompt : String) :
    ApiResponse VisData × Option String :=
  match d.gen prompt with
  | Except.error e => (ApiResponse.err 500 (providerErrorMessage e), some prompt)
  | Except.ok genResp =>
    if genResp.imageUrl.getD "" = "" then
      (ApiResponse.err 500 "Failed to generate room visualization", some prompt)
    else
      match d.download with
      | Except.error m => (ApiResponse.err 500 m, some prompt)
      | Except.ok _ =>
        match d.uploadError with
        | some _ => (ApiResponse.err 500 "Failed to save visualization", some prompt)
        | none =>
          let filePath := uid ++ "/" ++ d.freshName ++ ".jpg"
          let visualizationUrl := publicUrl "generated-rooms" filePath
          match d.upsert with
          | Except.error _ =>
            (ApiResponse.ok 200 { url := visualizationUrl, session_id := none },
              some prompt)
          | Except.ok s =>
            (ApiResponse.ok 200 { url := visualizationUrl, session_id := some s.id },
              some prompt)

/-- Model of the POST handler of /api/generate-room-visual. The second
component of the result records the prompt passed to the image generation
operation of the provider adapter, none when the handler returned before
invoking it. The in-query over furniture ids returns the catalog rows whose
id is listed, without any check that every listed id was found. -/
def generateRoomVisual (d : VisDeps) (req : VisRequest) :
    ApiResponse VisData × Option String :=
  match d.authUser with
  | none => (ApiResponse.err 401 "Unauthorized", none)
  | some uid =>
    if visValidate req = false then (ApiResponse.err 400 "validation failed", none)
    else
      match d.roomImages.find? (fun ri => ri.id = req.room_image_id) with
      | none => (ApiResponse.err 404 "Room image not found", none)
      | some roomImage =>
        if roomImage.user_id ≠ uid then (ApiResponse.err 403 "Unauthorized", none)
        else
          match d.furnitureQueryError with
          | some _ => (ApiResponse.err 500 "Failed to fetch furniture details", none)
          | none =>
            let roomImageUrl := publicUrl "room-uploads" roomImage.file_path
            let items := d.furnitureItems.filter
              (fun it => req.furniture_item_ids.contains it.id)
            visGenerate d uid (visPrompt roomImageUrl items)

/-- Reaching the generation stage: once authentication, validation,
ownership and the furniture query pass, the handler runs visGenerate on the
prompt built from the found rows. -/
theorem generateRoomVisual_reaches_generation
    (d : VisDeps) (req : VisRequest) (uid : String) (roomImage : RoomImage)
    (hau : d.authUser = some uid)
    (hv : visValidate req = true)
    (hfind : d.roomImages.find? (fun ri => ri.id = req.room_image_id) = some roomImage)
    (hown : roomImage.user_id = uid)
    (hq : d.furnitureQueryError = none) :
    generateRoomVisual d req =
      visGenerate d uid (visPrompt (publicUrl "room-uploads" roomImage.file_path)
        (d.furnitureItems.filter (fun it => req.furniture_item_ids.contains it.id))) := by
  simp [generateRoomVisual, hau, hv, hfind, hown, hq]

/-- The generation stage always records the prompt it passed to the image
generation operation, whatever the downstream outcomes. -/
theorem visGenerate_snd (d : VisDeps) (uid prompt : String) :
    (visGenerate d uid prompt).2 = some prompt := by
  unfold visGenerate
  rcases hg : d.gen prompt with e | g
  · rfl
  · by_cases hge : g.imageUrl.getD "" = "" <;>
      rcases hdl : d.download with m | u <;>
        rcases hup : d.uploadError with _ | m2 <;>
          rcases hups : d.upsert with er | s <;>
            simp [hge, hdl, hup, hups]

/-- When generation, download and upload all succeed, the generation stage
answers with a success envelope carrying the public URL of the re-uploaded
image. -/
theorem visGenerate_success (d : VisDeps) (uid prompt : String)
    (g : ImageGenerationResponse)
    (hg : d.gen prompt = Except.ok g) (hne : g.imageUrl.getD "" ≠ "")
    (hdl : d.download = Except.ok ()) (hup : d.uploadError = none) :
    ∃ sid, (visGenerate d uid prompt).1 =
      ApiResponse.ok 200
        { url := publicUrl "generated-rooms" (uid ++ "/" ++ d.freshName ++ ".jpg")
          session_id := sid } := by
  unfold visGenerate
  rcases hups : d.upsert with er | s <;> simp [hg, hne, hdl, hup, hups]

/-- Catalog item present in the concrete visualization scenarios. -/
def visCatalogUuid : String := "123e4567-e89b-12d3-a456-426614174001"

/-- Furniture id listed in the concrete request but absent from the
catalog. -/
def visMissingUuid : String := "123e4567-e89b-12d3-a456-426614174002"

/-- The one catalog row of the concrete visualization scenarios. -/
def visCatalogItem : FurnitureItem :=
  { id := visCatalogUuid
    name := "Modern Sofa"
    description := "Elegant modern sofa"
    price := 1299
    dimensions := "84 x 38 x 34"
    material := "Premium fabric"
    tags := ["living room", "modern", "sofa"]
    image_urls := ["https://example.com/sofa.jpg"]
    stock_status := true
    category := "sofa"
    purchase_link := "https://example.com/sofa" }

/-- Visualization request listing one catalog id and one id absent from the
catalog; both are well-formed uuids, so validation passes. -/
def visMissingReq : VisRequest :=
  { room_image_id := recRoomUuid
    furniture_item_ids := [visCatalogUuid, visMissingUuid] }

/-- Dependencies of the concrete visualization scenario in which every
downstream step succeeds. -/
def visHappyDeps : VisDeps :=
  { authUser := some "user-1"
    roomImages := [recRoomImage]
    furnitureItems := [visCatalogItem]
    furnitureQueryError := none
    gen := fun _ => Except.ok
      { imageUrl := some "https://ai.example/generated.png", provider := LLMProvider.openai }
    download := Except.ok ()
    uploadError := none
    freshName := "gen-1"
    upsert := Except.ok
      { id := "sess-3"
        user_id := "user-1"
        uploaded_image_id := recRoomUuid
        selected_furniture_ids := [visCatalogUuid, visMissingUuid]
        generated_image_url := some "https://storage.example/generated-rooms/user-1/gen-1.jpg" } }

/-- Claim C1 counterexample: a request listing an id absent from the catalog
does not make the workflow fail before the image generation call - the
provider is invoked (a prompt is recorded) and the request even succeeds
with a URL, the missing id having been silently dropped by the in-query. -/
theorem missing_id_does_not_block_generation :
    (generateRoomVisual visHappyDeps visMissingReq).2.isSome = true ∧
    (generateRoomVisual visHappyDeps visMissingReq).1 =
      ApiResponse.ok 200
        { url := "https://storage.example/generated-rooms/user-1/gen-1.jpg"
          session_id := some "sess-3" } ∧
    visMissingReq.furniture_item_ids.contains visMissingUuid = true ∧
    (visHappyDeps.furnitureItems.map FurnitureItem.id).contains visMissingUuid = false := by
  decide

/-- Claim C1 amended: ids absent from the catalog are silently dropped by
the furniture in-query. Once authentication, validation, ownership and the
furniture query pass, the image generation operation is always invoked,
whether or not every listed id resolves; and whenever generation, download
and upload succeed the workflow answers with the URL of the stored image -
in particular for every request whose ids all exist in the catalog. -/
theorem vis_url_on_success
    (d : VisDeps) (req : VisRequest) (uid : String) (roomImage : RoomImage)
    (hau : d.authUser = some uid)
    (hv : visValidate req = true)
    (hfind : d.roomImages.find? (fun ri => ri.id = req.room_image_id) = some roomImage)
    (hown : roomImage.user_id = uid)
    (hq : d.furnitureQueryError = none) :
    (generateRoomVisual d req).2.isSome = true ∧
    (∀ g, (∀ p, d.gen p = Except.ok g) → g.imageUrl.getD "" ≠ "" →
      d.download = Except.ok () → d.uploadError = none →
      ∃ sid, (generateRoomVisual d req).1 =
        ApiResponse.ok 200
          { url := publicUrl "generated-rooms" (uid ++ "/" ++ d.freshName ++ ".jpg")
            session_id := sid }) := by
  rw [generateRoomVisual_reaches_generation d req uid roomImage hau hv hfind hown hq]
  constructor
  · rw [visGenerate_snd]; rfl
  · intro g hg hne hdl hup
    exact visGenerate_success d uid _ g (hg _) hne hdl hup

/-- Witness for the amended C1: under all-successful collaborators the
concrete request (with a dangling id) yields a success envelope with the
stored URL. -/
theorem vis_url_on_success_witness :
    ∃ sid, (generateRoomVisual visHappyDeps visMissingReq).1 =
      ApiResponse.ok 200
        { url := publicUrl "generated-rooms" ("user-1" ++ "/" ++ visHappyDeps.freshName ++ ".jpg")
          session_id := sid } :=
  (vis_url_on_success visHappyDeps visMissingReq "user-1" recRoomImage
      rfl (by decide) (by decide) rfl rfl).2
    { imageUrl := some "https://ai.example/generated.png", provider := LLMProvider.openai }
    (fun _ => rfl) (by decide) rfl rfl

/-- Claim C7: once the handler reaches the generation stage, a failure of
image generation (or a falsy generated URL), of the download of the image
bytes, or of the re-upload to the object store surfaces as a 500 error
envelope, while a failure of the session upsert alone is non-fatal: the
success envelope with the stored URL is still returned, with a null session
id. -/
theorem vis_failure_semantics
    (d : VisDeps) (req : VisRequest) (uid : String) (roomImage : RoomImage)
    (hau : d.authUser = some uid)
    (hv : visValidate req = true)
    (hfind : d.roomImages.find? (fun ri => ri.id = req.room_image_id) = some roomImage)
    (hown : roomImage.user_id = uid)
    (hq : d.furnitureQueryError = none) :
    (∀ e, (∀ p, d.gen p = Except.error e) →
      (generateRoomVisual d req).1 = ApiResponse.err 500 (providerErrorMessage e)) ∧
    (∀ g, (∀ p, d.gen p = Except.ok g) → g.imageUrl.getD "" = "" →
      (generateRoomVisual d req).1 =
        ApiResponse.err 500 "Failed to generate room visualization") ∧
    (∀ g m, (∀ p, d.gen p = Except.ok g) → g.imageUrl.getD "" ≠ "" →
      d.download = Except.error m →
      (generateRoomVisual d req).1 = ApiResponse.err 500 m) ∧
    (∀ g m, (∀ p, d.gen p = Except.ok g) → g.imageUrl.getD "" ≠ "" →
      d.download = Except.ok () → d.uploadError = some m →
      (generateRoomVisual d req).1 = ApiResponse.err 500 "Failed to save visualization") ∧
    (∀ g m, (∀ p, d.gen p = Except.ok g) → g.imageUrl.getD "" ≠ "" →
      d.download = Except.ok () → d.uploadError = none → d.upsert = Except.error m →
      (generateRoomVisual d req).1 =
        ApiResponse.ok 200
          { url := publicUrl "generated-rooms" (uid ++ "/" ++ d.freshName ++ ".jpg")
            session_id := none }) := by
  rw [generateRoomVisual_reaches_generation d req uid roomImage hau hv hfind hown hq]
  refine ⟨?_, ?_, ?_, ?_, ?_⟩
  · intro e hg
    simp [visGenerate, hg _]
  · intro g hg hge
    simp [visGenerate, hg _, hge]
  · intro g m hg hne hdl
    simp [visGenerate, hg _, hne, hdl]
  · intro g m hg hne hdl hup
    simp [visGenerate, hg _, hne, hdl, hup]
  · intro g m hg hne hdl hup hups
    simp [visGenerate, hg _, hne, hdl, hup, hups]

/-- Dependencies of the concrete C7 scenario: generation, download and
upload succeed but the session upsert fails. -/
def visUpsertFailDeps : VisDeps :=
  { authUser := some "user-1"
    roomImages := [recRoomImage]
    furnitureItems := [visCatalogItem]
    furnitureQueryError := none
    gen := fun _ => Except.ok
      { imageUrl := some "https://ai.example/generated.png", provider := LLMProvider.openai }
    download := Except.ok ()
    uploadError := none
    freshName := "gen-2"
    upsert := Except.error "permission denied for table user_sessions" }

/-- Witness for C7: with a failing session upsert the handler still answers
success with the stored URL and a null session id. -/
theorem vis_failure_semantics_witness :
    (generateRoomVisual visUpsertFailDeps visMissingReq).1 =
      ApiResponse.ok 200
        { url := publicUrl "generated-rooms"
            ("user-1" ++ "/" ++ visUpsertFailDeps.freshName ++ ".jpg")
          session_id := none } :=
  (vis_failure_semantics visUpsertFailDeps visMissingReq "user-1" recRoomImage
      rfl (by decide) (by decide) rfl rfl).2.2.2.2
    { imageUrl := some "https://ai.example/generated.png", provider := LLMProvider.openai }
    "permission denied for table user_sessions"
    (fun _ => rfl) (by decide) rfl rfl rfl

/-! ## Furniture catalog DELETE handler (/api/furniture/:id) -/

/-- External collaborators of the DELETE handler: the authenticated user,
the users table is_admin lookup (error or flag), the user_sessions table,
a possible error of the reference-check query, and a possible error of the
delete itself. -/
structure DeleteDeps where
  authUser : Option String
  adminLookup : Except String Bool
  sessions : List UserSession
  sessionCheckError : Option String
  deleteError : Option String
deriving Repr

/-- The contains-query of the DELETE handler: sessions whose
selected_furniture_ids contain the id, limited to one row. -/
def sessionsReferencing (sessions : List UserSession) (id : String) :
    List UserSession :=
  (sessions.filter (fun s => s.selected_furniture_ids.contains id)).take 1

/-- Delete step of the handler: on a database error the table is unchanged
and a 500 envelope is returned, otherwise the row is removed. -/
def doDeleteFurniture (d : DeleteDeps) (table : List FurnitureItem) (id : String) :
    ApiResponse String × List FurnitureItem :=
  match d.deleteError with
  | some _ => (ApiResponse.err 500 "Failed to delete furniture item", table)
  | none =>
    (ApiResponse.ok 200 "Furniture item deleted successfully",
      table.filter (fun it => it.id ≠ id))

/-- Model of the DELETE handler of /api/furniture/:id: authentication, the
is_admin check (a lookup error or a non-true flag both give 403), then the
reference check - whose own error is only logged, after which the handler
falls through to the delete - and the 409 conflict answer when a referencing
session was found. -/
def deleteFurniture (d : DeleteDeps) (table : List FurnitureItem) (id : String) :
    ApiResponse String × List FurnitureItem :=
  match d.authUser with
  | none => (ApiResponse.err 401 "Unauthorized", table)
  | some _uid =>
    match d.adminLookup with
    | Except.error _ => (ApiResponse.err 403 "Forbidden: Admin access required", table)
    | Except.ok isAdmin =>
      if isAdmin = false then
        (ApiResponse.err 403 "Forbidden: Admin access required", table)
      else
        if d.sessionCheckError.isSome then
          doDeleteFurniture d table id
        else
          if (sessionsReferencing d.sessions id).isEmpty = false then
            (ApiResponse.err 409
              "Cannot delete furniture item that is used in user sessions", table)
          else
            doDeleteFurniture d table id

/-- Session row referencing the concrete catalog item. -/
def referencingSession : UserSession :=
  { id := "sess-9"
    user_id := "user-2"
    uploaded_image_id := recRoomUuid
    selected_furniture_ids := [visCatalogUuid]
    generated_image_url := none }

/-- Dependencies of the concrete C6 scenario: an authenticated admin, a
session referencing the item, and a reference-check query that itself
errors. -/
def checkErrorDeps : DeleteDeps :=
  { authUser := some "admin-1"
    adminLookup := Except.ok true
    sessions := [referencingSession]
    sessionCheckError := some "connection reset"
    deleteError := none }

/-- Claim C6 counterexample: when the reference-check query errors, the
handler only logs and proceeds, deleting an item that a session still
references and answering success - so the invariant does not hold in the
branch where the reference lookup itself errors. -/
theorem delete_proceeds_on_check_error :
    deleteFurniture checkErrorDeps [visCatalogItem] visCatalogUuid =
      (ApiResponse.ok 200 "Furniture item deleted successfully", []) ∧
    referencingSession.selected_furniture_ids.contains visCatalogUuid = true := by
  decide

/-- Claim C6 amended: for every admin DELETE for which the reference-check
query succeeds, the handler answers 409 and leaves the table unchanged
whenever some session references the item; when the reference-check query
itself errors the handler proceeds to delete regardless of references. -/
theorem delete_blocked_when_referenced
    (d : DeleteDeps) (table : List FurnitureItem) (id : String) (uid : String)
    (hau : d.authUser = some uid)
    (hadmin : d.adminLookup = Except.ok true)
    (hcheck : d.sessionCheckError = none)
    (href : (sessionsReferencing d.sessions id).isEmpty = false) :
    deleteFurniture d table id =
      (ApiResponse.err 409 "Cannot delete furniture item that is used in user sessions",
        table) := by
  simp [deleteFurniture, hau, hadmin, hcheck, href]

/-- Dependencies of the concrete amended C6 scenario: the reference check
succeeds and finds the referencing session. -/
def checkOkDeps : DeleteDeps :=
  { authUser := some "admin-1"
    adminLookup := Except.ok true
    sessions := [referencingSession]
    sessionCheckError := none
    deleteError := none }

/-- Witness for the amended C6 at the concrete referencing session. -/
theorem delete_blocked_when_referenced_witness :
    deleteFurniture checkOkDeps [visCatalogItem] visCatalogUuid =
      (ApiResponse.err 409 "Cannot delete furniture item that is used in user sessions",
        [visCatalogItem]) :=
  delete_blocked_when_referenced checkOkDeps [visCatalogItem] visCatalogUuid "admin-1"
    rfl rfl rfl (by decide)

/-! ## Placement metadata store (/api/furniture-placement-metadata) -/

/-- A fully validated placement of the batch schema. -/
structure PlacementInput where
  furniture_id : String
  x : Rat
  y : Rat
  width : Rat
  height : Rat
deriving DecidableEq, Repr

/-- A JSON object element of the placements array before validation; none
marks an absent key. -/
structure RawPlacement where
  furniture_id : Option String
  x : Option Rat
  y : Option Rat
  width : Option Rat
  height : Option Rat
deriving DecidableEq, Repr

/-- A JSON object body before validation, restricted to the keys any of the
placement schemas read; none marks an absent key. -/
structure RawBody where
  id : Option String
  generated_image_id : Option String
  furniture_id : Option String
  x : Option Rat
  y : Option Rat
  width : Option Rat
  height : Option Rat
  placements : Option (List RawPlacement)
deriving DecidableEq, Repr

/-- A decoded JSON request body of the placement POST handler: either a
JSON array (Array.isArray true) or a JSON object (Array.isArray false). -/
inductive PostBody where
  | arrayBody (elems : List RawBody)
  | objectBody (fields : RawBody)
deriving DecidableEq, Repr

/-- Validation of one element of the placements array: uuid furniture id,
numeric coordinates, strictly positive width and height. -/
def parseRawPlacement (r : RawPlacement) : Option PlacementInput :=
  match r.furniture_id, r.x, r.y, r.width, r.height with
  | some f, some x, some y, some w, some h =>
    if isUuid f && decide (0 < w) && decide (0 < h) then
      some { furniture_id := f, x := x, y := y, width := w, height := h }
    else none
  | _, _, _, _, _ => none

/-- Model of BatchPlacementSchema.safeParse: being a zod object schema it
rejects a JSON array outright, and on an object it requires a uuid
generated_image_id together with a placements array whose elements all
validate. -/
def batchSchemaParse (b : PostBody) : Option (String × List PlacementInput) :=
  match b with
  | PostBody.arrayBody _ => none
  | PostBody.objectBody f =>
    match f.generated_image_id, f.placements with
    | some g, some ps =>
      if isUuid g then
        match ps.mapM parseRawPlacement with
        | some inputs => some (g, inputs)
        | none => none
      else none
    | _, _ => none

/-- A fully validated single placement body (the id field omitted by the
single-create schema). -/
structure SinglePlacement where
  generated_image_id : String
  furniture_id : String
  x : Rat
  y : Rat
  width : Rat
  height : Rat
deriving DecidableEq, Repr

/-- Model of FurniturePlacementMetadataSchema.omit(id).safeParse on a JSON
object: uuid generated_image_id and furniture_id, numeric coordinates,
strictly positive width and height; a placements key is not recognized. -/
def singleSchemaParse (f : RawBody) : Option SinglePlacement :=
  match f.generated_image_id, f.furniture_id, f.x, f.y, f.width, f.height with
  | some g, some fid, some x, some y, some w, some h =>
    if isUuid g && isUuid fid && decide (0 < w) && decide (0 < h) then
      some { generated_image_id := g, furniture_id := fid, x := x, y := y
             width := w, height := h }
    else none
  | _, _, _, _, _, _ => none

/-- External collaborators of the placement POST handler: the authenticated
user, the user_sessions table, a possible insert error, and the fresh row
ids the database assigns to inserted rows. -/
structure PlacementDeps where
  authUser : Option String
  sessions : List UserSession
  insertError : Option String
  freshIds : List String
deriving Repr

/-- Model of the POST handler of /api/furniture-placement-metadata: the
dispatch is Array.isArray(body), so a JSON array is checked against the
batch object schema and a JSON object against the single-placement schema;
both paths then check ownership of the session named by generated_image_id
and insert. -/
def placementPost (d : PlacementDeps) (rows : List PlacementRow) (body : PostBody) :
    ApiResponse (List PlacementRow) × List PlacementRow :=
  match d.authUser with
  | none => (ApiResponse.err 401 "Unauthorized", rows)
  | some uid =>
    match body with
    | PostBody.arrayBody _ =>
      match batchSchemaParse body with
      | none => (ApiResponse.err 400 "batch validation failed", rows)
      | some (g, ps) =>
        match d.sessions.find? (fun s => s.id = g) with
        | none => (ApiResponse.err 403 "Unauthorized", rows)
        | some s =>
          if s.user_id ≠ uid then (ApiResponse.err 403 "Unauthorized", rows)
          else
            match d.insertError with
            | some _ => (ApiResponse.err 500 "Failed to create placement metadata", rows)
            | none =>
              let newRows := (d.freshIds.zip ps).map (fun pr =>
                { id := pr.1, generated_image_id := g, furniture_id := pr.2.furniture_id,
                  x := pr.2.x, y := pr.2.y, width := pr.2.width, height := pr.2.height })
              (ApiResponse.ok 201 newRows, rows ++ newRows)
    | PostBody.objectBody f =>
      match singleSchemaParse f with
      | none => (ApiResponse.err 400 "validation failed", rows)
      | some sp =>
        match d.sessions.find? (fun s => s.id = sp.generated_image_id) with
        | none => (ApiResponse.err 403 "Unauthorized", rows)
        | some s =>
          if s.user_id ≠ uid then (ApiResponse.err 403 "Unauthorized", rows)
          else
            match d.insertError with
            | some _ => (ApiResponse.err 500 "Failed to create placement metadata", rows)
            | none =>
              let newRow : PlacementRow :=
                { id := d.freshIds.headD "row-1", generated_image_id := sp.generated_image_id,
                  furniture_id := sp.furniture_id, x := sp.x, y := sp.y,
                  width := sp.width, height := sp.height }
              (ApiResponse.ok 201 [newRow], rows ++ [newRow])

/-- Design session owned by user-3, referenced in the placement scenarios. -/
def placementSessUuid : String := "123e4567-e89b-12d3-a456-426614174003"

/-- Furniture id used in the placement scenarios. -/
def placementFurnUuid : String := "123e4567-e89b-12d3-a456-426614174004"

/-- A well-formed batch creation body: a uuid generated_image_id and one
valid placement, exactly what BatchPlacementSchema declares. -/
def batchRaw : RawBody :=
  { id := none
    generated_image_id := some placementSessUuid
    furniture_id := none
    x := none
    y := none
    width := none
    height := none
    placements := some
      [ { furniture_id := some placementFurnUuid
          x := some 10
          y := some 20
          width := some 30
          height := some 40 } ] }

/-- Placement POST dependencies in which the caller owns the referenced
session and the database is healthy. -/
def batchDeps : PlacementDeps :=
  { authUser := some "user-3"
    sessions := [
      { id := placementSessUuid
        user_id := "user-3"
        uploaded_image_id := recRoomUuid
        selected_furniture_ids := []
        generated_image_url := some "https://storage.example/generated-rooms/user-3/a.jpg" } ]
    insertError := none
    freshIds := ["pl-1", "pl-2"] }

/-- Claim C8: the batch body that BatchPlacementSchema accepts is a JSON
object, but the handler dispatches on Array.isArray, so the object-shaped
batch is routed to the single-placement schema and rejected with 400, while
the array-shaped variant reaches the batch branch only to be rejected by the
object schema - every batch-shaped request fails even for the owner with a
healthy database, and no placement row is ever created. -/
theorem batch_placement_always_rejected :
    batchSchemaParse (PostBody.objectBody batchRaw) =
      some (placementSessUuid,
        [{ furniture_id := placementFurnUuid, x := 10, y := 20, width := 30, height := 40 }]) ∧
    placementPost batchDeps [] (PostBody.objectBody batchRaw) =
      (ApiResponse.err 400 "validation failed", []) ∧
    placementPost batchDeps [] (PostBody.arrayBody [batchRaw]) =
      (ApiResponse.err 400 "batch validation failed", []) := by
  decide

/-- External collaborators of the placement PUT handler: the authenticated
user, the user_sessions table, and a possible update error. -/
structure PutDeps where
  authUser : Option String
  sessions : List UserSession
  updateError : Option String
deriving Repr

/-- Model of FurniturePlacementMetadataSchema.safeParse (the full schema,
id included) on a JSON object. -/
def putSchemaParse (f : RawBody) : Option PlacementRow :=
  match f.id, f.generated_image_id, f.furniture_id, f.x, f.y, f.width, f.height with
  | some i, some g, some fid, some x, some y, some w, some h =>
    if isUuid i && isUuid g && isUuid fid && decide (0 < w) && decide (0 < h) then
      some { id := i, generated_image_id := g, furniture_id := fid, x := x, y := y
             width := w, height := h }
    else none
  | _, _, _, _, _, _, _ => none

/-- The update statement of the PUT handler applied to one stored row: on
the row whose id matches, furniture_id and the box fields are set; id and
generated_image_id are not part of the update payload. -/
def updateRow (p : PlacementRow) (row : PlacementRow) : PlacementRow :=
  if row.id = p.id then
    { row with
        furniture_id := p.furniture_id
        x := p.x
        y := p.y
        width := p.width
        height := p.height }
  else row

/-- Model of the PUT handler of /api/furniture-placement-metadata: body
validation against the full schema, fetch of the existing row by id (404
when absent), ownership check through the user session referenced by the
stored generated_image_id, then the update; the response carries the
updated row. -/
def placementPut (d : PutDeps) (rows : List PlacementRow) (body : RawBody) :
    ApiResponse PlacementRow × List PlacementRow :=
  match d.authUser with
  | none => (ApiResponse.err 401 "Unauthorized", rows)
  | some uid =>
    match putSchemaParse body with
    | none => (ApiResponse.err 400 "validation failed", rows)
    | some p =>
      match rows.find? (fun r => r.id = p.id) with
      | none => (ApiResponse.err 404 "Placement not found", rows)
      | some existing =>
        match d.sessions.find? (fun s => s.id = existing.generated_image_id) with
        | none => (ApiResponse.err 403 "Unauthorized", rows)
        | some s =>
          if s.user_id ≠ uid then (ApiResponse.err 403 "Unauthorized", rows)
          else
            match d.updateError with
            | some _ => (ApiResponse.err 500 "Failed to update placement metadata", rows)
            | none =>
              (ApiResponse.ok 200 (updateRow p existing), rows.map (updateRow p))

/-- The update statement never changes a row id. -/
theorem updateRow_id (p r : PlacementRow) : (updateRow p r).id = r.id := by
  unfold updateRow; split <;> rfl

/-- The update statement never changes a row generated_image_id. -/
theorem updateRow_generated_image_id (p r : PlacementRow) :
    (updateRow p r).generated_image_id = r.generated_image_id := by
  unfold updateRow; split <;> rfl

/-- Applying the same update twice to a row equals applying it once. -/
theorem updateRow_idem (p r : PlacementRow) :
    updateRow p (updateRow p r) = updateRow p r := by
  unfold updateRow
  by_cases h : r.id = p.id <;> simp [h]

/-- Lookup by the updated id commutes with the update map, because the
update preserves ids. -/
theorem find?_map_updateRow (p : PlacementRow) (rows : List PlacementRow) :
    (rows.map (updateRow p)).find? (fun r => r.id = p.id) =
      (rows.find? (fun r => r.id = p.id)).map (updateRow p) := by
  induction rows with
  | nil => rfl
  | cons r rs ih =>
    by_cases h : r.id = p.id
    · simp [List.find?, updateRow_id, h]
    · simp [List.find?, updateRow_id, h, ih]

/-- Mapping the same update twice over the table equals mapping it once. -/
theorem map_updateRow_idem (p : PlacementRow) (rows : List PlacementRow) :
    (rows.map (updateRow p)).map (updateRow p) = rows.map (updateRow p) := by
  rw [List.map_map]
  apply List.map_congr_left
  intro a _
  exact updateRow_idem p a

/-- Claim C9: the placement PUT is idempotent - whenever a PUT succeeds,
repeating it with the identical body on the resulting table returns the same
stored row and leaves the table exactly as after the first application, and
the update created no additional row. -/
theorem placement_put_idempotent
    (d : PutDeps) (rows rows1 : List PlacementRow) (body : RawBody)
    (resp : PlacementRow)
    (h1 : placementPut d rows body = (ApiResponse.ok 200 resp, rows1)) :
    placementPut d rows1 body = (ApiResponse.ok 200 resp, rows1) ∧
    rows1.length = rows.length := by
  unfold placementPut at h1
  rcases hau : d.authUser with _ | uid
  · simp [hau] at h1
  rcases hp : putSchemaParse body with _ | p
  · simp [hau, hp] at h1
  rcases hf : rows.find? (fun r => r.id = p.id) with _ | existing
  · simp [hau, hp, hf] at h1
  rcases hs : d.sessions.find? (fun s => s.id = existing.generated_image_id) with _ | s
  · simp [hau, hp, hf, hs] at h1
  by_cases hsu : s.user_id = uid
  · rcases hue : d.updateError with _ | m
    · simp only [hau, hp, hf, hs, hue, hsu, ne_eq, not_true_eq_false,
        if_false, Prod.mk.injEq, ApiResponse.ok.injEq, true_and] at h1
      obtain ⟨hresp, hrows⟩ := h1
      subst hresp
      subst hrows
      constructor
      · simp [placementPut, hau, hp, find?_map_updateRow, hf, Function.comp_def,
          updateRow_id, updateRow_generated_image_id, hs, hsu, hue,
          updateRow_idem, map_updateRow_idem]
      · simp
    · simp [hau, hp, hf, hs, hsu, hue] at h1
  · simp [hau, hp, hf, hs, hsu] at h1

/-- Stored-row id of the concrete C9 scenario. -/
def plRowUuid : String := "123e4567-e89b-12d3-a456-426614174005"

/-- Previous furniture id of the stored row before the update. -/
def plOldFurnUuid : String := "123e4567-e89b-12d3-a456-426614174006"

/-- The PUT body of the concrete C9 scenario. -/
def putBodyC9 : RawBody :=
  { id := some plRowUuid
    generated_image_id := some placementSessUuid
    furniture_id := some placementFurnUuid
    x := some 1
    y := some 2
    width := some 3
    height := some 4
    placements := none }

/-- Stored placement row before the update. -/
def initialRowC9 : PlacementRow :=
  { id := plRowUuid
    generated_image_id := placementSessUuid
    furniture_id := plOldFurnUuid
    x := 0
    y := 0
    width := 1
    height := 1 }

/-- Stored placement row after the update. -/
def updatedRowC9 : PlacementRow :=
  { id := plRowUuid
    generated_image_id := placementSessUuid
    furniture_id := placementFurnUuid
    x := 1
    y := 2
    width := 3
    height := 4 }

/-- PUT dependencies of the concrete C9 scenario: the caller owns the
session the stored row points at, the database is healthy. -/
def putDepsC9 : PutDeps :=
  { authUser := some "user-3"
    sessions := [
      { id := placementSessUuid
        user_id := "user-3"
        uploaded_image_id := recRoomUuid
        selected_furniture_ids := []
        generated_image_url := some "https://storage.example/generated-rooms/user-3/a.jpg" } ]
    updateError := none }

/-- Witness for C9 at the concrete scenario: the second identical PUT
returns the same row and leaves the single-row table unchanged. -/
theorem placement_put_idempotent_witness :
    placementPut putDepsC9 [updatedRowC9] putBodyC9 =
      (ApiResponse.ok 200 updatedRowC9, [updatedRowC9]) ∧
    ([updatedRowC9] : List PlacementRow).length = ([initialRowC9] : List PlacementRow).length :=
  placement_put_idempotent putDepsC9 [initialRowC9] [updatedRowC9] putBodyC9 updatedRowC9
    (by decide)

end Beluva
